import Mathlib

/-!
Verification development for the ZltRepo particle-simulation repository.

The repository has two source files:
* src/src/physics.h — a 2-D particle/grid header (class declarations for
  Particle, GridCell, Grid, Physics; member bodies are not in the repo).
* src/b2/src/game.cpp — the 3-D game: construction, the logic-thread
  simulation loop (logicRoutine), the presentation entry point
  (presentScene) and the sensors entry point (onSensorsEvent).

Machine floats of the source are embedded as exact rationals (ℚ); decimal
literals such as 9.8f, 0.01f become the corresponding rationals. Member
function bodies that are declared in the repository but whose definitions
are not under the repository sources are modelled from the specification
document; each such definition carries a doc comment starting with
"Modelled from the spec:".
-/

namespace Ph

/-- Two-component vector embedding glm::vec2 (components as exact rationals). -/
structure Vec2 where
  x : ℚ
  y : ℚ
deriving DecidableEq, Repr

instance : Add Vec2 := ⟨fun a b => ⟨a.x + b.x, a.y + b.y⟩⟩

instance : Sub Vec2 := ⟨fun a b => ⟨a.x - b.x, a.y - b.y⟩⟩

/-- Scalar multiple of a 2-D vector. -/
def Vec2.smul (k : ℚ) (v : Vec2) : Vec2 := ⟨k * v.x, k * v.y⟩

/-- Zero vector. -/
def Vec2.zero : Vec2 := ⟨0, 0⟩

/-- Squared Euclidean norm of a 2-D vector. -/
def Vec2.norm2 (v : Vec2) : ℚ := v.x * v.x + v.y * v.y

/-- The components of a glm::vec2 value, in order: exactly x and y. -/
def Vec2.componentList (v : Vec2) : List ℚ := [v.x, v.y]

/-- Particle as declared in src/src/physics.h lines 32-35: fields pos, prev,
forces (each a glm::vec2) and a float mass.  The source class holds exactly
these four data members. -/
structure Particle where
  pos : Vec2
  prev : Vec2
  forces : Vec2
  mass : ℚ
deriving DecidableEq, Repr

/-- Modelled from the spec: the particle mass; the spec states the invariant
mass > 0 but gives no numeric value (the constructor body Particle::Particle
is declared in physics.h but its definition is not under the repository
sources), so the model fixes an arbitrary positive constant. -/
def particleMass : ℚ := 1

/-- Modelled from the spec: the fixed particle radius used by intersect
("the sum of their fixed radii"); no numeric value appears in the sources,
so the model fixes an arbitrary positive constant. -/
def particleRadius : ℚ := 1 / 2

/-- Modelled from the spec: construction of a particle at a given position
(Particle::Particle(const glm::vec2 &pos)); created with previousPosition
equal to position (zero implied velocity), a cleared force accumulator and
the fixed positive mass. -/
def Particle.construct (p : Vec2) : Particle :=
  { pos := p, prev := p, forces := Vec2.zero, mass := particleMass }

/-- Modelled from the spec: setPosition overwrites the current position. -/
def Particle.setPosition (q : Particle) (p : Vec2) : Particle :=
  { q with pos := p }

/-- Modelled from the spec: applyForce accumulates the force into the force
buffer; side effect only, no motion (spec section 4.1). -/
def Particle.applyForce (q : Particle) (f : Vec2) : Particle :=
  { q with forces := q.forces + f }

/-- Modelled from the spec: calcAcceleration derives the acceleration from
the accumulated force and the mass (a = F / m). -/
def Particle.calcAcceleration (q : Particle) : Vec2 :=
  Vec2.smul (1 / q.mass) q.forces

/-- Modelled from the spec: move integrates with the Verlet scheme of spec
section 4.1: velocity is implied as pos - prev, previousPosition is set to
the current position, the position advances by velocity plus acceleration
times dt squared, and the force accumulator is cleared. -/
def Particle.move (q : Particle) (dt : ℚ) : Particle :=
  let a := q.calcAcceleration
  let vel := q.pos - q.prev
  { pos := q.pos + vel + Vec2.smul (dt * dt) a
    prev := q.pos
    forces := Vec2.zero
    mass := q.mass }

/-- Squared distance between the positions of two particles. -/
def Particle.dist2 (p q : Particle) : ℚ := Vec2.norm2 (p.pos - q.pos)

/-- Modelled from the spec: intersect(other, outDist, outDiff) from spec
section 4.1 — returns whether the Euclidean distance between the two
particles is less than the sum of their fixed radii; on true reports the
separation vector and the overlap magnitude (radius sum minus distance);
pure query, no mutation (the embedding is a function returning the bool and
the two out-parameters, leaving both particles untouched).  Since an exact
Euclidean distance is in general irrational, the distance d is supplied as
an argument and the theorems constrain it to be the square root of the
squared distance. -/
def Particle.intersect (p q : Particle) (d : ℚ) : Bool × Vec2 × ℚ :=
  if d < particleRadius + particleRadius then
    (true, p.pos - q.pos, particleRadius + particleRadius - d)
  else
    (false, Vec2.zero, 0)

/-- Mutating operations a particle can undergo during its lifetime
(the public mutators declared in physics.h). -/
inductive ParticleOp where
  | applyForce (f : Vec2)
  | move (dt : ℚ)
  | setPosition (p : Vec2)
deriving Repr

/-- Apply one lifetime operation to a particle. -/
def applyParticleOp (q : Particle) : ParticleOp → Particle
  | ParticleOp.applyForce f => q.applyForce f
  | ParticleOp.move dt => q.move dt
  | ParticleOp.setPosition p => q.setPosition p

/-- Run a sequence of lifetime operations from a freshly constructed
particle. -/
def runParticleOps (p : Vec2) (ops : List ParticleOp) : Particle :=
  ops.foldl applyParticleOp (Particle.construct p)

/-- The default cell capacity, physics.h line 10. -/
def DEFAULT_CELL_CAPACITY : Nat := 32

/-- GridCell as declared in src/src/physics.h lines 40-55: a count and a
fixed array of DEFAULT_CELL_CAPACITY particle pointers.  The embedding
stores the count-prefix of the pointer array as a list of particle
references (pointers modelled as reference ids); the count is its length. -/
structure GridCell where
  parts : List Nat
deriving DecidableEq, Repr

/-- The number of stored particle references (GridCell::getCount). -/
def GridCell.getCount (c : GridCell) : Nat := c.parts.length

/-- Modelled from the spec: the GridCell default constructor; counts start
at zero (spec: cleared and refilled every step, clear resets counts). -/
def GridCell.construct : GridCell := ⟨[]⟩

/-- Modelled from the spec: push appends the reference into the bucket; if
the bucket is at capacity the push is dropped (spec sections 4.2 and 7),
never an abort or an out-of-bounds write.  The capacity bound
DEFAULT_CELL_CAPACITY = 32 comes from the header. -/
def GridCell.push (c : GridCell) (r : Nat) : GridCell :=
  if c.parts.length < DEFAULT_CELL_CAPACITY then ⟨c.parts ++ [r]⟩ else c

/-- Modelled from the spec: clear resets the count to zero without
deallocating backing storage. -/
def GridCell.clear (_c : GridCell) : GridCell := ⟨[]⟩

/-- The operations a grid cell undergoes (its public mutators). -/
inductive CellOp where
  | push (r : Nat)
  | clear
deriving Repr

/-- Apply one cell operation. -/
def applyCellOp (c : GridCell) : CellOp → GridCell
  | CellOp.push r => c.push r
  | CellOp.clear => c.clear

/-- Run a sequence of cell operations from a freshly constructed cell:
every GridCell state arising at runtime is of this form. -/
def runCellOps (ops : List CellOp) : GridCell :=
  ops.foldl applyCellOp GridCell.construct

end Ph

namespace physics

/-- Three-component vector embedding glm::vec3 (components as exact
rationals). -/
structure Vec3 where
  x : ℚ
  y : ℚ
  z : ℚ
deriving DecidableEq, Repr

instance : Add Vec3 := ⟨fun a b => ⟨a.x + b.x, a.y + b.y, a.z + b.z⟩⟩

instance : Sub Vec3 := ⟨fun a b => ⟨a.x - b.x, a.y - b.y, a.z - b.z⟩⟩

/-- Scalar multiple of a 3-D vector. -/
def Vec3.smul (k : ℚ) (v : Vec3) : Vec3 := ⟨k * v.x, k * v.y, k * v.z⟩

/-- Zero vector. -/
def Vec3.zero : Vec3 := ⟨0, 0, 0⟩

/-- Squared Euclidean norm of a 3-D vector. -/
def Vec3.norm2 (v : Vec3) : ℚ := v.x * v.x + v.y * v.y + v.z * v.z

/-- Integer 3-D cell coordinate (glm::ivec3). -/
def Cell3 : Type := Int × Int × Int
deriving instance DecidableEq, Repr for Cell3

/-- Modelled from the spec: the particle of the 3-D physics engine
(namespace physics of game.cpp; its header is not under the repository
sources).  Spec section 3: position, previousPosition, forceAccumulator,
each a vec3, plus a float mass with invariant mass > 0. -/
structure Particle where
  position : Vec3
  previousPosition : Vec3
  forceAccumulator : Vec3
  mass : ℚ
deriving DecidableEq, Repr

/-- Modelled from the spec: mass of a particle; the spec requires
mass > 0 but names no value, so the model fixes an arbitrary positive
constant. -/
def defaultMass : ℚ := 1

/-- Modelled from the spec: the fixed interaction radius of a particle;
numeric value not under the repository sources. -/
def particleRadius : ℚ := 1 / 2

/-- Modelled from the spec: physics::Particle(glm::vec3) as called from
Game::initLogicThread — a particle at the given position with zero implied
velocity, cleared force accumulator and the fixed positive mass. -/
def Particle.construct (p : Vec3) : Particle :=
  { position := p, previousPosition := p, forceAccumulator := Vec3.zero,
    mass := defaultMass }

/-- Modelled from the spec: accumulate a force (spec section 4.1). -/
def Particle.applyForce (q : Particle) (f : Vec3) : Particle :=
  { q with forceAccumulator := q.forceAccumulator + f }

/-- Modelled from the spec: Verlet integration step (spec section 4.1):
acceleration from accumulated force and mass, implicit velocity
position - previousPosition, then advance and clear the accumulator. -/
def Particle.move (q : Particle) (dt : ℚ) : Particle :=
  let a := Vec3.smul (1 / q.mass) q.forceAccumulator
  let vel := q.position - q.previousPosition
  { position := q.position + vel + Vec3.smul (dt * dt) a
    previousPosition := q.position
    forceAccumulator := Vec3.zero
    mass := q.mass }

/-- Squared distance between two particle positions. -/
def Particle.dist2 (p q : Particle) : ℚ := Vec3.norm2 (p.position - q.position)

/-- The cell coordinate of a continuous position (componentwise floor). -/
def cellOf (v : Vec3) : Cell3 := (Rat.floor v.x, Rat.floor v.y, Rat.floor v.z)

/-- Componentwise sum of two cell coordinates. -/
def cellAdd (a b : Cell3) : Cell3 := (a.1 + b.1, a.2.1 + b.2.1, a.2.2 + b.2.2)

/-- Whether a cell coordinate lies inside a grid of the given size. -/
def inBounds (gs : Cell3) (c : Cell3) : Bool :=
  decide (0 ≤ c.1) && decide (c.1 < gs.1) && decide (0 ≤ c.2.1) &&
  decide (c.2.1 < gs.2.1) && decide (0 ≤ c.2.2) && decide (c.2.2 < gs.2.2)

/-- Modelled from the spec: pushing one particle reference into a bucket
grid represented as a map from cell coordinates to reference lists; at
capacity (32, spec section 3) the push is dropped. -/
def gridPush (g : Cell3 → List Nat) (c : Cell3) (r : Nat) : Cell3 → List Nat :=
  fun c2 =>
    if c2 = c then
      if (g c).length < Ph.DEFAULT_CELL_CAPACITY then g c ++ [r] else g c
    else g c2

/-- Modelled from the spec: clear-and-rebuild of the spatial grid from the
current particle positions (spec section 4.2): every particle reference is
pushed into the cell of its position, starting from an empty grid. -/
def buildGrid (ps : List Particle) : Cell3 → List Nat :=
  (ps.enum).foldl (fun g ir => gridPush g (cellOf ir.2.position) ir.1)
    (fun _ => [])

/-- Modelled from the spec: bounds-checked cell access — out-of-range
coordinates are treated as holding no particles (spec sections 4.2, 7). -/
def gridGet (gs : Cell3) (g : Cell3 → List Nat) (c : Cell3) : List Nat :=
  if inBounds gs c then g c else []

/-- The 27 cell offsets of a 3x3x3 neighborhood. -/
def offsets3 : List Cell3 :=
  (List.range 3).flatMap fun i =>
    (List.range 3).flatMap fun j =>
      (List.range 3).map fun k => ((i : Int) - 1, (j : Int) - 1, (k : Int) - 1)

/-- Exact rational square root where one exists (helper for the solver
model; callers guard on d * d recovering the radicand). -/
def ratSqrt (q : ℚ) : ℚ :=
  if q.num < 0 then 0 else (Nat.sqrt q.num.natAbs : ℚ) / (Nat.sqrt q.den : ℚ)

/-- Modelled from the spec: resolve one intersecting pair (spec section
4.3): when the two particles overlap, push them apart along the separation
vector proportionally to inverse mass.  The correction applies only when
the separation length is an exact rational (the model's stand-in for
floating-point square roots); no claim depends on the numeric form of the
correction. -/
def resolvePair (ps : List Particle) (i j : Nat) : List Particle :=
  match ps.get? i, ps.get? j with
  | some p, some q =>
    let d2 := Particle.dist2 p q
    let d := ratSqrt d2
    let rsum := particleRadius + particleRadius
    if d * d = d2 ∧ 0 < d ∧ d < rsum then
      let overlap := rsum - d
      let invmp := 1 / p.mass
      let invmq := 1 / q.mass
      let dir := Vec3.smul (1 / d) (p.position - q.position)
      let wp := invmp / (invmp + invmq)
      let wq := invmq / (invmp + invmq)
      let ps1 := ps.set i { p with position := p.position + Vec3.smul (overlap * wp) dir }
      ps1.set j { q with position := q.position - Vec3.smul (overlap * wq) dir }
    else ps
  | _, _ => ps

/-- Modelled from the spec: candidate partners of a particle — the contents
of its own cell and the 26 neighboring cells (spec section 4.3). -/
def candidatesFor (gs : Cell3) (g : Cell3 → List Nat) (p : Particle) : List Nat :=
  offsets3.flatMap fun o => gridGet gs g (cellAdd (cellOf p.position) o)

/-- Modelled from the spec: solve the pairs of one particle against its
neighborhood candidates, skipping the particle itself. -/
def solveParticle (gs : Cell3) (g : Cell3 → List Nat) (ps : List Particle)
    (i : Nat) : List Particle :=
  match ps.get? i with
  | some p =>
    (candidatesFor gs g p).foldl
      (fun acc j => if j = i then acc else resolvePair acc i j) ps
  | none => ps

/-- Modelled from the spec: one relaxation pass of the collision solver
over every particle index. -/
def solvePass (gs : Cell3) (g : Cell3 → List Nat) (ps : List Particle) :
    List Particle :=
  (List.range ps.length).foldl (solveParticle gs g) ps

/-- Iterate a function n times. -/
def iterN (f : α → α) : Nat → α → α
  | 0, a => a
  | n + 1, a => iterN f n (f a)

/-- Modelled from the spec: the configured solver iteration count (spec
section 4.3: a fixed number, e.g. 2-3; the game.cpp comment records
solver iters = 2). -/
def solverIterations : Nat := 2

/-- Clamp one axis into the interval from lo to hi, zeroing the residual
velocity along a clamped axis (the pair is position and previous
position). -/
def clampAxis (lo hi x px : ℚ) : ℚ × ℚ :=
  if x < lo then (lo, lo) else if hi < x then (hi, hi) else (x, px)

/-- Modelled from the spec: hard clamp of a particle into the simulation
box from 0 to gridSize per axis, with zero residual velocity along each
clamped axis (spec section 4.3). -/
def correctToBounds (gs : Cell3) (p : Particle) : Particle :=
  let cx := clampAxis 0 (gs.1 : ℚ) p.position.x p.previousPosition.x
  let cy := clampAxis 0 (gs.2.1 : ℚ) p.position.y p.previousPosition.y
  let cz := clampAxis 0 (gs.2.2 : ℚ) p.position.z p.previousPosition.z
  { p with position := ⟨cx.1, cy.1, cz.1⟩,
           previousPosition := ⟨cx.2, cy.2, cz.2⟩ }

/-- Modelled from the spec: the particle cloud — owns the particle
collection and the grid dimensions; size fixed at construction (spec
section 3). -/
structure Cloud where
  gridSize : Cell3
  particles : List Particle
deriving DecidableEq, Repr

/-- Modelled from the spec: ParticleCloud.update (spec section 4.4), always
in this order: (1) apply externalAcceleration * mass to every particle as a
force; (2) integrate all particles; (3) clear and rebuild the grid from the
new positions; (4) run the solver for the configured iteration count; (5)
clamp all particles to bounds.  The singleThreaded flag selects the worker
scheduling only; the model gives the single-threaded (sequential)
semantics for either value. -/
def Cloud.update (c : Cloud) (externalAcceleration : Vec3) (dt : ℚ)
    (_singleThreaded : Bool) : Cloud :=
  let ps1 := c.particles.map fun p =>
    p.applyForce (Vec3.smul p.mass externalAcceleration)
  let ps2 := ps1.map fun p => p.move dt
  let g := buildGrid ps2
  let ps3 := iterN (solvePass c.gridSize g) solverIterations ps2
  let ps4 := ps3.map (correctToBounds c.gridSize)
  { c with particles := ps4 }

end physics

namespace physics

/-- Modulus of the minstd linear congruential engine behind
std::default_random_engine on the build's standard library. -/
def minstdM : Nat := 2147483647

/-- One engine step of minstd_rand0 (multiplier 16807 modulo 2^31 - 1). -/
def minstdNext (s : Nat) : Nat := (16807 * s) % minstdM

/-- Engine seeding: a seed congruent to zero is replaced by one. -/
def minstdSeed (t : Nat) : Nat := if t % minstdM = 0 then 1 else t % minstdM

/-- Modelled from the spec: one draw of
std::uniform_real_distribution(lo, hi) from an engine output, as the
affine image of the output over the engine range (the exact
standard-library mapping is implementation defined; only determinacy in
the engine output matters to the claims). -/
def uniformDraw (lo hi : ℚ) (e : Nat) : ℚ :=
  lo + (hi - lo) * ((e : ℚ) / (minstdM : ℚ))

/-- The generator lambda of Game::initLogicThread (game.cpp lines 64-70):
construct a std::default_random_engine seeded with the timestamp observed
at this call, then draw x, y, z uniformly from 0.5 to gridSize.axis - 0.5
and return a particle at that position. -/
def generateParticle (gs : Cell3) (t : Nat) : Particle :=
  let s0 := minstdSeed t
  let e1 := minstdNext s0
  let e2 := minstdNext e1
  let e3 := minstdNext e2
  Particle.construct
    ⟨uniformDraw (1 / 2) ((gs.1 : ℚ) - 1 / 2) e1,
     uniformDraw (1 / 2) ((gs.2.1 : ℚ) - 1 / 2) e2,
     uniformDraw (1 / 2) ((gs.2.2 : ℚ) - 1 / 2) e3⟩

/-- Modelled from the spec: physics::Cloud construction as called from
Game::initLogicThread — the cloud of the given grid size whose particle
collection is produced by calling the generator once per index; the
generator reads one wall-clock timestamp per call, supplied here as the
function from call index to observed timestamp. -/
def Cloud.construct (gs : Cell3) (count : Nat) (ts : Nat → Nat) : Cloud :=
  { gridSize := gs, particles := (List.range count).map fun i => generateParticle gs (ts i) }

end physics

namespace b2

open physics

/-- Modelled from the spec: one vertex record of the isosurface mesh —
position and normal, three floats each (spec sections 3 and 6). -/
structure MeshVertex where
  position : Vec3
  normal : Vec3
deriving DecidableEq, Repr

/-- Modelled from the spec: the margin of padding cells around the physics
grid used by the isosurface extractor; the constant lives in the game
header, which is not under the repository sources. -/
def margin : Int := 1

/-- Modelled from the spec: the fixed interaction radius passed to
Isosurface::generateMesh (game.cpp line 149); the constant lives in the
game header, which is not under the repository sources. -/
def radius : ℚ := 1 / 2

/-- Integer coordinates of every voxel of a padded domain. -/
def voxelCoords (ps : Cell3) : List Cell3 :=
  (List.range ps.1.toNat).flatMap fun i =>
    (List.range ps.2.1.toNat).flatMap fun j =>
      (List.range ps.2.2.toNat).map fun k => ((i : Int), (j : Int), (k : Int))

/-- Modelled from the spec: the scalar density of a voxel — the count of
particles within the fixed interaction radius of the voxel center (spec
section 4.5). -/
def densityAt (particles : List Particle) (r : ℚ) (v : Cell3) : Nat :=
  (particles.filter fun p =>
    Vec3.norm2 (p.position - ⟨(v.1 : ℚ) + 1 / 2, (v.2.1 : ℚ) + 1 / 2, (v.2.2 : ℚ) + 1 / 2⟩)
      < r * r).length

/-- The six axis-aligned neighbor offsets of a voxel. -/
def axisOffsets : List Cell3 :=
  [(1, 0, 0), (-1, 0, 0), (0, 1, 0), (0, -1, 0), (0, 0, 1), (0, 0, -1)]

/-- Modelled from the spec: Isosurface::generateMesh — rebuilds the density
field of the padded domain from the current particle positions and emits a
triangle for every voxel whose density reaches the iso-threshold while
some axis neighbor stays below it (marching-cells stand-in), each vertex
carrying a position on the voxel and a normal along the local density
gradient (spec section 4.5).  The singleThread flag selects worker
scheduling only; the result is the same function of the particles. -/
def generateMesh (particles : List Particle) (r : ℚ) (_singleThread : Bool)
    (paddedSize : Cell3) : List MeshVertex :=
  (voxelCoords paddedSize).flatMap fun v =>
    let d := densityAt particles r v
    if 1 ≤ d ∧ axisOffsets.any (fun o => densityAt particles r (cellAdd v o) < 1) then
      let grad : Vec3 :=
        ⟨(densityAt particles r (cellAdd v (-1, 0, 0)) : ℚ) - (densityAt particles r (cellAdd v (1, 0, 0)) : ℚ),
         (densityAt particles r (cellAdd v (0, -1, 0)) : ℚ) - (densityAt particles r (cellAdd v (0, 1, 0)) : ℚ),
         (densityAt particles r (cellAdd v (0, 0, -1)) : ℚ) - (densityAt particles r (cellAdd v (0, 0, 1)) : ℚ)⟩
      [⟨⟨(v.1 : ℚ), (v.2.1 : ℚ), (v.2.2 : ℚ)⟩, grad⟩,
       ⟨⟨(v.1 : ℚ) + 1, (v.2.1 : ℚ), (v.2.2 : ℚ)⟩, grad⟩,
       ⟨⟨(v.1 : ℚ), (v.2.1 : ℚ) + 1, (v.2.2 : ℚ)⟩, grad⟩]
    else []

/-- Modelled from the spec: the mesh double buffer (spec section 4.6) —
two mesh slots plus a selector of the currently published slot. -/
structure MeshBuffer where
  slotA : List MeshVertex
  slotB : List MeshVertex
  useA : Bool
deriving DecidableEq, Repr

/-- Modelled from the spec: the reader returns the published slot. -/
def MeshBuffer.get (b : MeshBuffer) : List MeshVertex :=
  if b.useA then b.slotA else b.slotB

/-- Modelled from the spec: the writer moves the new mesh into the
inactive slot then flips the selector. -/
def MeshBuffer.swap (b : MeshBuffer) (m : List MeshVertex) : MeshBuffer :=
  if b.useA then { slotA := b.slotA, slotB := m, useA := false }
  else { slotA := m, slotB := b.slotB, useA := true }

/-- Modelled from the spec: the latest-value acceleration slot — push
overwrites the current value (spec section 4.8). -/
def AccelerationInput.push (_slot : Vec3) (v : Vec3) : Vec3 := v

/-- Modelled from the spec: the reader of the acceleration slot returns
the current value. -/
def AccelerationInput.get (slot : Vec3) : Vec3 := slot

/-- The default acceleration installed by the Game constructor
(game.cpp line 21): the vector (0, -9.8, 0). -/
def defaultAcceleration : Vec3 := ⟨0, -(49 / 5), 0⟩

/-- Modelled from the spec: the fail-fast assertion helper used by
Game::initLogicThread (exception.hpp is not under the repository sources):
an unsatisfied condition aborts construction with the given code before
anything after it runs. -/
def _assert (cond : Bool) (code : Nat) : Except Nat Unit :=
  if cond then Except.ok () else Except.error code

/-- Truncation toward zero of a rational, embedding the C float-to-int32
conversion. -/
def truncQ (q : ℚ) : Int := if q < 0 then Rat.ceil q else Rat.floor q

/-- The grid size computed by Game::initLogicThread line 62: width,
truncated width-scaled aspect of the surface, width. -/
def gridSizeOf (surfaceSize : Int × Int) (gridWidth : Nat) : Cell3 :=
  ((gridWidth : Int),
   truncQ ((gridWidth : ℚ) * (surfaceSize.2 : ℚ) / (surfaceSize.1 : ℚ)),
   (gridWidth : Int))

/-- The state produced by a successful Game::initLogicThread: the grid
size, the constructed particle cloud, the padded isosurface domain and the
spawned logic thread.  An assertion failure yields no such state: no
particle is created and no thread is spawned. -/
structure LogicInit where
  gridSize : Cell3
  particlesCloud : Cloud
  isosurfaceSize : Cell3
  logicThreadStarted : Bool

/-- Game::initLogicThread (game.cpp lines 57-73): assert both parameters
positive (failing fast with code 0xd78eead8), then compute the grid size,
construct the particle cloud via the timestamp-seeded generator, size the
isosurface and spawn the logic thread. -/
def Game.initLogicThread (surfaceSize : Int × Int) (gridWidth particlesCount : Nat)
    (ts : Nat → Nat) : Except Nat LogicInit := do
  let _ ← _assert (decide (0 < gridWidth)) 0xd78eead8
  let _ ← _assert (decide (0 < particlesCount)) 0xd78eead8
  let gridSize := gridSizeOf surfaceSize gridWidth
  pure { gridSize := gridSize,
         particlesCloud := Cloud.construct gridSize particlesCount ts,
         isosurfaceSize := cellAdd gridSize (margin, margin, margin),
         logicThreadStarted := true }

end b2

namespace b2

open physics

/-- One iteration's wall-clock observations (milliseconds): the local
timer delta after the physics update, the local timer delta after the mesh
generation, and the global timer delta of the whole iteration.  Timer is a
collaborator whose source is not under the repository; getDeltaMs is
modelled as the (nonnegative, otherwise arbitrary) time elapsed since the
previous call. -/
structure TimingObs where
  pMs : ℚ
  rMs : ℚ
  gMs : ℚ
deriving DecidableEq, Repr

/-- The mutable state visible to one iteration of Game::logicRoutine: the
Game fields it reads or writes (acceleration slot, single-thread flag,
particle cloud, mesh double buffer, grid size) plus the loop locals
frames, elapsed, pTime, rTime of game.cpp lines 127-128 and the sequence
of aggregate logs emitted so far (each an average-physics,
average-render pair). -/
structure LoopState where
  acceleration : Vec3
  singleThread : Bool
  gridSize : Cell3
  particlesCloud : Cloud
  mesh : MeshBuffer
  frames : Nat
  elapsed : ℚ
  pTime : ℚ
  rTime : ℚ
  logs : List (ℚ × ℚ)

/-- The body of one iteration of Game::logicRoutine (game.cpp lines
143-162): read the single-thread flag, update the cloud with the current
acceleration slot value and the constant step 0.01, accumulate the physics
time, swap the freshly generated mesh into the double buffer, accumulate
the render-prep time, count the frame, accumulate the global elapsed time,
and when at least 1000 ms have accumulated emit one aggregate log of the
per-frame averages and reset every accumulator to zero. -/
def logicBody (s : LoopState) (obs : TimingObs) : LoopState :=
  let singleThread := s.singleThread
  let cloud2 := s.particlesCloud.update (AccelerationInput.get s.acceleration)
    (1 / 100) singleThread
  let pTime2 := s.pTime + obs.pMs
  let mesh2 := s.mesh.swap
    (generateMesh cloud2.particles radius singleThread
      (cellAdd s.gridSize (margin, margin, margin)))
  let rTime2 := s.rTime + obs.rMs
  let frames2 := s.frames + 1
  let elapsed2 := s.elapsed + obs.gMs
  if 1000 ≤ elapsed2 then
    { s with particlesCloud := cloud2, mesh := mesh2,
             logs := s.logs ++ [(pTime2 / (frames2 : ℚ), rTime2 / (frames2 : ℚ))],
             frames := 0, elapsed := 0, pTime := 0, rTime := 0 }
  else
    { s with particlesCloud := cloud2, mesh := mesh2,
             frames := frames2, elapsed := elapsed2, pTime := pTime2, rTime := rTime2 }

/-- Observable events of the logic loop: one mesh publication (swap into
the double buffer) per executed iteration body. -/
inductive LoopEvent where
  | meshSwap
deriving DecidableEq, Repr

/-- Game::logicRoutine (game.cpp lines 125-164) as a trace function: the
first list is the successive values returned by the atomic load of the
liveness flag, observed exactly once at the top of each iteration; the
second list supplies the wall-clock observations of successive iteration
bodies.  A true load runs one body (publishing one mesh swap) and loops; a
false load (or the end of the observation stream) exits at once with no
further effect.  Returns the final state and the emitted event trace. -/
def logicRoutineRun (s : LoopState) : List Bool → List TimingObs → LoopState × List LoopEvent
  | [], _ => (s, [])
  | false :: _, _ => (s, [])
  | true :: fs, obss =>
    let s2 := logicBody s (obss.headD ⟨0, 0, 0⟩)
    let r := logicRoutineRun s2 fs obss.tail
    (r.1, LoopEvent.meshSwap :: r.2)

/-- The loop state at entry of Game::logicRoutine for a game constructed
per Game::Game and Game::initLogicThread: default acceleration slot,
configured single-thread flag, the timestamp-generated cloud, an empty
mesh double buffer and zeroed loop locals. -/
def gameStart (surfaceSize : Int × Int) (gridWidth count : Nat) (ts : Nat → Nat)
    (singleThread : Bool) : LoopState :=
  let gs := gridSizeOf surfaceSize gridWidth
  { acceleration := defaultAcceleration,
    singleThread := singleThread,
    gridSize := gs,
    particlesCloud := Cloud.construct gs count ts,
    mesh := ⟨[], [], true⟩,
    frames := 0, elapsed := 0, pTime := 0, rTime := 0, logs := [] }

/-- Game::onSensorsEvent (game.cpp lines 52-55): forward the vector to the
acceleration input slot. -/
def Game.onSensorsEvent (s : LoopState) (acceleration : Vec3) : LoopState :=
  { s with acceleration := AccelerationInput.push s.acceleration acceleration }

/-- The final particle list of a run: the cloud constructed from the
per-call timestamps, advanced by the given number of update steps with the
default acceleration, the constant step 0.01 and single-threaded
execution.  This is the pure function of (grid size, timestamp sequence,
particle count, step count) that the simulation computes. -/
def finalParticles (surfaceSize : Int × Int) (gridWidth count : Nat)
    (ts : Nat → Nat) (steps : Nat) : List Particle :=
  let gs := gridSizeOf surfaceSize gridWidth
  (iterN (fun c => Cloud.update c defaultAcceleration (1 / 100) true) steps
    (Cloud.construct gs count ts)).particles

/-- The OpenGL-visible state touched by Game::presentScene, with the thin
GL wrapper calls of the excluded rendering collaborator modelled as
records of their effect: the vertex buffer contents, whether a buffer
object exists, the vertex attribute format (component count and stride in
floats per attribute), whether the shader program is in use, the uniform
names last set, the depth-test switch, the clear color and the list of
issued draw calls (vertex counts). -/
structure RenderState where
  surfaceVertices : List MeshVertex
  bufferAllocated : Bool
  vertexFormat : List (Nat × Nat)
  programInUse : Bool
  uniformsSet : List String
  depthTestEnabled : Bool
  clearColor : ℚ × ℚ × ℚ × ℚ
  draws : List Nat
deriving DecidableEq, Repr

/-- Game::presentScene (game.cpp lines 88-123): read the published mesh
from the double buffer; when it is empty return immediately, issuing no
draw call and leaving every piece of render state unchanged; otherwise
upload the mesh into the vertex buffer, set the two-attribute vertex
format, bind the shader program and its two uniforms, enable depth
testing, set the clear color and issue one draw of the mesh's vertex
count. -/
def Game.presentScene (localMesh : List MeshVertex) (rs : RenderState) : RenderState :=
  if localMesh.length = 0 then rs
  else
    { surfaceVertices := localMesh,
      bufferAllocated := true,
      vertexFormat := [(3, 6), (3, 6)],
      programInUse := true,
      uniformsSet := ["in_projection", "in_modelview"],
      depthTestEnabled := true,
      clearColor := (1 / 2, 3 / 5, 2 / 5, 1),
      draws := rs.draws ++ [localMesh.length] }

end b2


/-- A sample loop state used to exercise the loop body at concrete
inputs: one frame and 600 ms already accumulated, 5 ms of physics and
7 ms of render-prep time, no logs yet. -/
def sampleLoopState : b2.LoopState :=
  { acceleration := b2.defaultAcceleration, singleThread := true,
    gridSize := (1, 1, 1), particlesCloud := ⟨(1, 1, 1), []⟩,
    mesh := ⟨[], [], true⟩, frames := 1, elapsed := 600, pTime := 5,
    rTime := 7, logs := [] }

/-- A sample render state with one prior draw call recorded. -/
def sampleRenderState : b2.RenderState :=
  { surfaceVertices := [], bufferAllocated := false, vertexFormat := [],
    programInUse := false, uniformsSet := [], depthTestEnabled := false,
    clearColor := (0, 0, 0, 1), draws := [5] }

/-- A sample mesh double buffer whose published slot is empty while the
inactive slot still holds a stale vertex. -/
def sampleMeshBuffer : b2.MeshBuffer :=
  ⟨[], [⟨⟨0, 0, 0⟩, ⟨0, 1, 0⟩⟩], true⟩

section Helpers

open Ph physics b2

/-- Unfolding lemma for 2-D vector subtraction. -/
theorem vec2_sub_def (a b : Ph.Vec2) : a - b = ⟨a.x - b.x, a.y - b.y⟩ := rfl

/-- Unfolding lemma for 2-D vector addition. -/
theorem vec2_add_def (a b : Ph.Vec2) : a + b = ⟨a.x + b.x, a.y + b.y⟩ := rfl

/-- Unfolding lemma for 3-D vector subtraction. -/
theorem vec3_sub_def (a b : physics.Vec3) : a - b = ⟨a.x - b.x, a.y - b.y, a.z - b.z⟩ := rfl

/-- Unfolding lemma for 3-D vector addition. -/
theorem vec3_add_def (a b : physics.Vec3) : a + b = ⟨a.x + b.x, a.y + b.y, a.z + b.z⟩ := rfl

/-- An assertion on a condition holding evaluates to success. -/
theorem assert_of_true {c : Bool} (h : c = true) (code : Nat) :
    b2._assert c code = Except.ok () := by
  simp [b2._assert, h]

/-- An assertion on a failing condition evaluates to the error code. -/
theorem assert_of_false {c : Bool} (h : c = false) (code : Nat) :
    b2._assert c code = Except.error code := by
  simp [b2._assert, h]

/-- A cell operation preserves the capacity bound on the count. -/
theorem applyCellOp_count_le (c : Ph.GridCell) (op : Ph.CellOp)
    (h : c.getCount ≤ Ph.DEFAULT_CELL_CAPACITY) :
    (Ph.applyCellOp c op).getCount ≤ Ph.DEFAULT_CELL_CAPACITY := by
  cases op with
  | push r =>
    simp only [Ph.applyCellOp, Ph.GridCell.push]
    split
    · next hlt => simpa [Ph.GridCell.getCount] using hlt
    · exact h
  | clear => simp [Ph.applyCellOp, Ph.GridCell.clear, Ph.GridCell.getCount]

/-- Any sequence of cell operations keeps the count within capacity. -/
theorem foldl_cellOps_count_le (ops : List Ph.CellOp) :
    ∀ c : Ph.GridCell, c.getCount ≤ Ph.DEFAULT_CELL_CAPACITY →
      (ops.foldl Ph.applyCellOp c).getCount ≤ Ph.DEFAULT_CELL_CAPACITY := by
  induction ops with
  | nil => intro c h; simpa using h
  | cons op rest ih =>
    intro c h
    exact ih (Ph.applyCellOp c op) (applyCellOp_count_le c op h)

/-- Particle lifetime operations do not touch the mass. -/
theorem applyParticleOp_mass (q : Ph.Particle) (op : Ph.ParticleOp) :
    (Ph.applyParticleOp q op).mass = q.mass := by
  cases op <;> rfl

/-- Any sequence of particle operations keeps the mass positive. -/
theorem foldl_particleOps_mass_pos (ops : List Ph.ParticleOp) :
    ∀ q : Ph.Particle, 0 < q.mass → 0 < (ops.foldl Ph.applyParticleOp q).mass := by
  induction ops with
  | nil => intro q h; simpa using h
  | cons op rest ih =>
    intro q h
    exact ih (Ph.applyParticleOp q op) (by rw [applyParticleOp_mass]; exact h)

end Helpers

/-- C1: constructing the game with a zero grid width or a zero particle
count fails fast at startup — Game::initLogicThread returns the assertion
error 0xd78eead8 and produces no initialized state (no particle is created,
no thread is spawned) — while for every gridWidth > 0 and particlesCount > 0
it completes with the fully initialized state (cloud constructed, logic
thread spawned) without triggering the assertions. -/
theorem C1_initLogicThread_fails_fast :
    ∀ (surfaceSize : Int × Int) (gridWidth particlesCount : Nat) (ts : Nat → Nat),
      (0 < gridWidth ∧ 0 < particlesCount →
        b2.Game.initLogicThread surfaceSize gridWidth particlesCount ts =
          Except.ok
            { gridSize := b2.gridSizeOf surfaceSize gridWidth,
              particlesCloud := physics.Cloud.construct (b2.gridSizeOf surfaceSize gridWidth)
                particlesCount ts,
              isosurfaceSize := physics.cellAdd (b2.gridSizeOf surfaceSize gridWidth)
                (b2.margin, b2.margin, b2.margin),
              logicThreadStarted := true })
      ∧ (gridWidth = 0 ∨ particlesCount = 0 →
        b2.Game.initLogicThread surfaceSize gridWidth particlesCount ts =
          Except.error 0xd78eead8) := by
  intro surfaceSize gridWidth particlesCount ts
  constructor
  · rintro ⟨h1, h2⟩
    simp only [b2.Game.initLogicThread]
    rw [assert_of_true (decide_eq_true h1), assert_of_true (decide_eq_true h2)]
    rfl
  · rintro (h | h)
    · subst h; rfl
    · subst h
      by_cases hg : 0 < gridWidth
      · simp only [b2.Game.initLogicThread]
        rw [assert_of_true (decide_eq_true hg)]
        rfl
      · simp only [b2.Game.initLogicThread]
        rw [assert_of_false (decide_eq_false hg)]
        rfl

/-- Witness for C1 at concrete inputs: gridWidth 2, particlesCount 3
initializes successfully, and gridWidth 0 fails with the assertion code. -/
theorem C1_witness :
    ((0 < 2 ∧ 0 < 3) ∧
      b2.Game.initLogicThread (1, 1) 2 3 (fun _ => 5) =
        Except.ok
          { gridSize := b2.gridSizeOf (1, 1) 2,
            particlesCloud := physics.Cloud.construct (b2.gridSizeOf (1, 1) 2) 3 (fun _ => 5),
            isosurfaceSize := physics.cellAdd (b2.gridSizeOf (1, 1) 2)
              (b2.margin, b2.margin, b2.margin),
            logicThreadStarted := true }) ∧
    b2.Game.initLogicThread (1, 1) 0 3 (fun _ => 5) = Except.error 0xd78eead8 := by
  refine ⟨⟨⟨by decide, by decide⟩, ?_⟩, ?_⟩
  · exact (C1_initLogicThread_fails_fast (1, 1) 2 3 (fun _ => 5)).1 ⟨by decide, by decide⟩
  · exact (C1_initLogicThread_fails_fast (1, 1) 0 3 (fun _ => 5)).2 (Or.inl rfl)

/-- C2: every grid cell reachable by any sequence of push and clear
operations holds at most 32 (DEFAULT_CELL_CAPACITY) particle references,
and a push into a cell already holding 32 references leaves the cell
unchanged — the excess push is silently dropped. -/
theorem C2_gridCell_capacity :
    (∀ ops : List Ph.CellOp, (Ph.runCellOps ops).getCount ≤ Ph.DEFAULT_CELL_CAPACITY)
    ∧ (∀ (c : Ph.GridCell) (r : Nat),
        c.getCount = Ph.DEFAULT_CELL_CAPACITY → c.push r = c) := by
  constructor
  · intro ops
    exact foldl_cellOps_count_le ops Ph.GridCell.construct (by decide)
  · intro c r h
    simp only [Ph.GridCell.getCount] at h
    simp [Ph.GridCell.push, h]

/-- Witness for C2 at a concrete full cell: a cell holding 32 references
has count equal to the capacity and a further push leaves it unchanged. -/
theorem C2_witness :
    (Ph.GridCell.mk (List.replicate 32 0)).getCount = Ph.DEFAULT_CELL_CAPACITY ∧
    (Ph.GridCell.mk (List.replicate 32 0)).push 7 = Ph.GridCell.mk (List.replicate 32 0) := by
  refine ⟨by decide, ?_⟩
  exact C2_gridCell_capacity.2 (Ph.GridCell.mk (List.replicate 32 0)) 7 (by decide)

/-- C3: the simulation loop reads the liveness flag exactly once at the
top of each iteration; on the trace whose first k flag loads are true and
whose next load is false (the owner has cleared the flag), the loop
publishes exactly k mesh swaps — one per completed iteration — and nothing
after the cleared flag is read: the final state equals the state after the
k completed iterations, whatever flag values or timings would follow. -/
theorem C3_no_swap_after_cleared_flag :
    ∀ (k : Nat) (rest : List Bool) (obss : List b2.TimingObs) (s : b2.LoopState),
      (b2.logicRoutineRun s (List.replicate k true ++ false :: rest) obss).2 =
        List.replicate k b2.LoopEvent.meshSwap
      ∧ (b2.logicRoutineRun s (List.replicate k true ++ false :: rest) obss).1 =
        (b2.logicRoutineRun s (List.replicate k true) obss).1 := by
  intro k
  induction k with
  | zero =>
    intro rest obss s
    simp [b2.logicRoutineRun]
  | succ n ih =>
    intro rest obss s
    simp only [List.replicate_succ, List.cons_append, b2.logicRoutineRun, List.append_eq]
    exact ⟨by rw [(ih rest obss.tail _).1], by rw [(ih rest obss.tail _).2]⟩

/-- C4 counterexample: the claim says every particle field is a
3-component vector, but the position of a freshly constructed physics.h
particle is a glm::vec2 with exactly 2 components, not 3. -/
theorem C4_counterexample :
    ¬ (Ph.Vec2.componentList (Ph.Particle.construct ⟨0, 0⟩).pos).length = 3 := by
  decide

/-- C4 amended: every physics.h Particle consists of exactly the fields
pos, prev, forces — each a 2-component vector (glm::vec2) — plus a float
mass, and mass > 0 holds throughout the particle's lifetime (along any
sequence of its mutating operations from construction). -/
theorem C4_particle_fields_vec2_mass_pos :
    ∀ (v : Ph.Vec2) (ops : List Ph.ParticleOp),
      (Ph.Vec2.componentList (Ph.runParticleOps v ops).pos).length = 2
      ∧ (Ph.Vec2.componentList (Ph.runParticleOps v ops).prev).length = 2
      ∧ (Ph.Vec2.componentList (Ph.runParticleOps v ops).forces).length = 2
      ∧ 0 < (Ph.runParticleOps v ops).mass := by
  intro v ops
  refine ⟨rfl, rfl, rfl, ?_⟩
  exact foldl_particleOps_mass_pos ops (Ph.Particle.construct v) (by norm_num [Ph.Particle.construct, Ph.particleMass])

/-- C5: intersect returns true exactly when the Euclidean distance
between the two particles (the nonnegative square root d of the squared
distance) is less than the sum of their fixed radii; on true it reports
the separation vector and the overlap magnitude (radius sum minus
distance).  The embedding is a pure function of the two particles, so
neither the receiver nor the argument is mutated by construction. -/
theorem C5_intersect_boundary :
    ∀ (p q : Ph.Particle) (d : ℚ), 0 ≤ d → d * d = Ph.Particle.dist2 p q →
      (((Ph.Particle.intersect p q d).1 = true) ↔
        Ph.Particle.dist2 p q <
          (Ph.particleRadius + Ph.particleRadius) * (Ph.particleRadius + Ph.particleRadius))
      ∧ ((Ph.Particle.intersect p q d).1 = true →
        (Ph.Particle.intersect p q d).2.1 = p.pos - q.pos
        ∧ (Ph.Particle.intersect p q d).2.2 = Ph.particleRadius + Ph.particleRadius - d) := by
  intro p q d h0 hd
  have hR : (0 : ℚ) < Ph.particleRadius + Ph.particleRadius := by
    norm_num [Ph.particleRadius]
  constructor
  · constructor
    · intro ht
      by_cases hlt : d < Ph.particleRadius + Ph.particleRadius
      · rw [← hd]; nlinarith
      · simp [Ph.Particle.intersect, hlt] at ht
    · intro hlt2
      rw [← hd] at hlt2
      have hlt : d < Ph.particleRadius + Ph.particleRadius := by nlinarith
      simp [Ph.Particle.intersect, hlt]
  · intro ht
    by_cases hlt : d < Ph.particleRadius + Ph.particleRadius
    · simp [Ph.Particle.intersect, hlt]
    · simp [Ph.Particle.intersect, hlt] at ht

/-- Witness for C5 at concrete particles at (0,0) and (0,1/2) with exact
distance 1/2: the hypotheses hold, the particles intersect, and the
reported overlap is the radius sum 1 minus the distance 1/2. -/
theorem C5_witness :
    (0 : ℚ) ≤ 1 / 2
    ∧ (1 / 2 : ℚ) * (1 / 2) =
        Ph.Particle.dist2 (Ph.Particle.construct ⟨0, 0⟩) (Ph.Particle.construct ⟨0, 1 / 2⟩)
    ∧ ((Ph.Particle.construct ⟨0, 0⟩).intersect (Ph.Particle.construct ⟨0, 1 / 2⟩) (1 / 2)).1 = true
    ∧ ((Ph.Particle.construct ⟨0, 0⟩).intersect (Ph.Particle.construct ⟨0, 1 / 2⟩) (1 / 2)).2.2
        = 1 / 2 := by
  have h0 : (0 : ℚ) ≤ 1 / 2 := by norm_num
  have hd : (1 / 2 : ℚ) * (1 / 2) =
      Ph.Particle.dist2 (Ph.Particle.construct ⟨0, 0⟩) (Ph.Particle.construct ⟨0, 1 / 2⟩) := by
    norm_num [Ph.Particle.dist2, Ph.Vec2.norm2, Ph.Particle.construct, vec2_sub_def]
  have hmain := C5_intersect_boundary (Ph.Particle.construct ⟨0, 0⟩)
    (Ph.Particle.construct ⟨0, 1 / 2⟩) (1 / 2) h0 hd
  have hb := hmain.1.mpr (by rw [← hd]; norm_num [Ph.particleRadius])
  refine ⟨h0, hd, hb, ?_⟩
  rw [(hmain.2 hb).2]
  norm_num [Ph.particleRadius]

/-- C7: the acceleration input slot holds (0, -9.8, 0) by default — from
game construction, before any producer call; every onSensorsEvent call
overwrites the slot with its argument (last write wins); and each
simulation step passes the current slot value as the external
acceleration to the particle-cloud update. -/
theorem C7_acceleration_input :
    ∀ (surfaceSize : Int × Int) (gridWidth count : Nat) (ts : Nat → Nat) (st : Bool)
      (s : b2.LoopState) (v : physics.Vec3) (obs : b2.TimingObs),
      (b2.gameStart surfaceSize gridWidth count ts st).acceleration =
        physics.Vec3.mk 0 (-(49 / 5)) 0
      ∧ (b2.Game.onSensorsEvent s v).acceleration = v
      ∧ (b2.logicBody s obs).particlesCloud =
          physics.Cloud.update s.particlesCloud (b2.AccelerationInput.get s.acceleration)
            (1 / 100) s.singleThread := by
  intro surfaceSize gridWidth count ts st s v obs
  refine ⟨rfl, rfl, ?_⟩
  simp only [b2.logicBody]
  split <;> rfl

/-- C8: whenever the accumulated elapsed time of the iteration reaches
1000 ms, the loop body emits exactly one aggregate log holding the
accumulated physics and render-prep times each divided by the number of
iterations since the last log, and resets every accumulator to zero;
otherwise it emits nothing and carries all accumulators forward. -/
theorem C8_periodic_average_log :
    ∀ (s : b2.LoopState) (obs : b2.TimingObs),
      (1000 ≤ s.elapsed + obs.gMs →
        (b2.logicBody s obs).logs =
          s.logs ++ [((s.pTime + obs.pMs) / ((s.frames + 1 : Nat) : ℚ),
                      (s.rTime + obs.rMs) / ((s.frames + 1 : Nat) : ℚ))]
        ∧ (b2.logicBody s obs).frames = 0
        ∧ (b2.logicBody s obs).elapsed = 0
        ∧ (b2.logicBody s obs).pTime = 0
        ∧ (b2.logicBody s obs).rTime = 0)
      ∧ (s.elapsed + obs.gMs < 1000 →
        (b2.logicBody s obs).logs = s.logs
        ∧ (b2.logicBody s obs).frames = s.frames + 1
        ∧ (b2.logicBody s obs).elapsed = s.elapsed + obs.gMs
        ∧ (b2.logicBody s obs).pTime = s.pTime + obs.pMs
        ∧ (b2.logicBody s obs).rTime = s.rTime + obs.rMs) := by
  intro s obs
  constructor
  · intro h
    simp only [b2.logicBody]
    split
    · exact ⟨rfl, rfl, rfl, rfl, rfl⟩
    · next hc => exact absurd h hc
  · intro h
    simp only [b2.logicBody]
    split
    · next hc => exact absurd hc (not_le.mpr h)
    · exact ⟨rfl, rfl, rfl, rfl, rfl⟩

/-- Witness for C8 at the sample state (1 frame, 600 ms accumulated, 5 ms
physics, 7 ms render) with an iteration observing 1, 2 and 600 ms: the
threshold is reached, one log with averages (5+1)/2 = 3 and (7+2)/2 = 9/2
is emitted, and all accumulators reset. -/
theorem C8_witness :
    (1000 : ℚ) ≤ sampleLoopState.elapsed + (b2.TimingObs.mk 1 2 600).gMs
    ∧ (b2.logicBody sampleLoopState ⟨1, 2, 600⟩).logs = [(3, 9 / 2)]
    ∧ (b2.logicBody sampleLoopState ⟨1, 2, 600⟩).frames = 0
    ∧ (b2.logicBody sampleLoopState ⟨1, 2, 600⟩).elapsed = 0
    ∧ (b2.logicBody sampleLoopState ⟨1, 2, 600⟩).pTime = 0
    ∧ (b2.logicBody sampleLoopState ⟨1, 2, 600⟩).rTime = 0 := by
  have h : (1000 : ℚ) ≤ sampleLoopState.elapsed + (b2.TimingObs.mk 1 2 600).gMs := by
    norm_num [sampleLoopState]
  have hmain := (C8_periodic_average_log sampleLoopState ⟨1, 2, 600⟩).1 h
  refine ⟨h, ?_, hmain.2.1, hmain.2.2.1, hmain.2.2.2.1, hmain.2.2.2.2⟩
  rw [hmain.1]
  norm_num [sampleLoopState]

/-- C9: every executed iteration of the simulation loop invokes the
particle-cloud update with the constant time step 0.01, and the updated
cloud does not depend on the wall-clock observations of the iteration at
all — the step size is fixed, not measured. -/
theorem C9_fixed_timestep :
    ∀ (s : b2.LoopState) (obs1 obs2 : b2.TimingObs),
      (b2.logicBody s obs1).particlesCloud =
        physics.Cloud.update s.particlesCloud (b2.AccelerationInput.get s.acceleration)
          (1 / 100) s.singleThread
      ∧ (b2.logicBody s obs1).particlesCloud = (b2.logicBody s obs2).particlesCloud := by
  intro s obs1 obs2
  have h : ∀ obs : b2.TimingObs, (b2.logicBody s obs).particlesCloud =
      physics.Cloud.update s.particlesCloud (b2.AccelerationInput.get s.acceleration)
        (1 / 100) s.singleThread := by
    intro obs
    simp only [b2.logicBody]
    split <;> rfl
  exact ⟨h obs1, (h obs1).trans (h obs2).symm⟩

/-- C10: when the published mesh is empty, presentScene returns
immediately: it issues no draw call and leaves the vertex buffer, the
vertex format, the shader program binding, the uniforms, the depth-test
switch and the clear color all unchanged. -/
theorem C10_empty_mesh_early_return :
    ∀ (b : b2.MeshBuffer) (rs : b2.RenderState),
      b.get = [] → b2.Game.presentScene b.get rs = rs := by
  intro b rs h
  rw [h]
  rfl

/-- Witness for C10 at a buffer whose published slot is empty: the render
state, including its recorded draw calls, is returned untouched. -/
theorem C10_witness :
    b2.MeshBuffer.get sampleMeshBuffer = []
    ∧ b2.Game.presentScene (b2.MeshBuffer.get sampleMeshBuffer) sampleRenderState
        = sampleRenderState := by
  have h : b2.MeshBuffer.get sampleMeshBuffer = [] := rfl
  exact ⟨h, C10_empty_mesh_early_return sampleMeshBuffer sampleRenderState h⟩

/-- The loop body leaves the acceleration slot unchanged. -/
theorem logicBody_acceleration (s : b2.LoopState) (obs : b2.TimingObs) :
    (b2.logicBody s obs).acceleration = s.acceleration := by
  simp only [b2.logicBody]
  split <;> rfl

/-- The loop body leaves the single-thread flag unchanged. -/
theorem logicBody_singleThread (s : b2.LoopState) (obs : b2.TimingObs) :
    (b2.logicBody s obs).singleThread = s.singleThread := by
  simp only [b2.logicBody]
  split <;> rfl

/-- The loop body advances the cloud by one update with the current slot
acceleration, the constant step 0.01 and the current thread flag. -/
theorem logicBody_cloud (s : b2.LoopState) (obs : b2.TimingObs) :
    (b2.logicBody s obs).particlesCloud =
      physics.Cloud.update s.particlesCloud (b2.AccelerationInput.get s.acceleration)
        (1 / 100) s.singleThread := by
  simp only [b2.logicBody]
  split <;> rfl

/-- After k completed loop iterations, the cloud is the k-fold update of
the starting cloud — a pure function of the starting state and k,
independent of the wall-clock observations. -/
theorem logicRoutineRun_cloud :
    ∀ (k : Nat) (s : b2.LoopState) (obss : List b2.TimingObs),
      ((b2.logicRoutineRun s (List.replicate k true) obss).1).particlesCloud =
        physics.iterN
          (fun c => physics.Cloud.update c (b2.AccelerationInput.get s.acceleration)
            (1 / 100) s.singleThread) k s.particlesCloud := by
  intro k
  induction k with
  | zero => intro s obss; rfl
  | succ n ih =>
    intro s obss
    simp only [List.replicate_succ, b2.logicRoutineRun]
    rw [ih (b2.logicBody s (obss.headD ⟨0, 0, 0⟩)) obss.tail]
    rw [logicBody_acceleration, logicBody_singleThread, logicBody_cloud]
    rfl

/-- A grid built from a single particle holds the reference 0 in that
particle's cell and nothing anywhere else. -/
theorem buildGrid_one (p : physics.Particle) (c : physics.Cell3) :
    physics.buildGrid [p] c = if c = physics.cellOf p.position then [0] else [] := by
  show physics.gridPush (fun _ => []) (physics.cellOf p.position) 0 c = _
  simp [physics.gridPush, Ph.DEFAULT_CELL_CAPACITY]

/-- Every reference stored in a single-particle grid is the reference 0. -/
theorem mem_buildGrid_one {p : physics.Particle} {r : Nat} {c : physics.Cell3}
    (h : r ∈ physics.buildGrid [p] c) : r = 0 := by
  rw [buildGrid_one] at h
  split at h
  · simpa using h
  · simp at h

/-- Folding the pair-resolution step over candidates that all equal the
particle's own index leaves the particle list unchanged. -/
theorem foldl_resolve_skip (i : Nat) :
    ∀ (js : List Nat) (ps : List physics.Particle), (∀ j ∈ js, j = i) →
      js.foldl (fun acc j => if j = i then acc else physics.resolvePair acc i j) ps = ps := by
  intro js
  induction js with
  | nil => intro ps _; rfl
  | cons j rest ih =>
    intro ps h
    have hj : j = i := h j (List.mem_cons_self j rest)
    simp only [List.foldl_cons, hj, if_pos]
    exact ih ps fun j2 hj2 => h j2 (List.mem_cons_of_mem j hj2)

/-- Every candidate drawn from a single-particle grid is the reference 0. -/
theorem candidatesFor_one {gs : physics.Cell3} {p q : physics.Particle} {j : Nat}
    (h : j ∈ physics.candidatesFor gs (physics.buildGrid [p]) q) : j = 0 := by
  simp only [physics.candidatesFor, List.mem_flatMap] at h
  obtain ⟨o, _, hmem⟩ := h
  simp only [physics.gridGet] at hmem
  split at hmem
  · exact mem_buildGrid_one hmem
  · simp at hmem

/-- Solving a lone particle against a single-particle grid changes
nothing: its only candidate partner is itself, which is skipped. -/
theorem solveParticle_one (gs : physics.Cell3) (p q : physics.Particle) :
    physics.solveParticle gs (physics.buildGrid [p]) [q] 0 = [q] := by
  have he : physics.solveParticle gs (physics.buildGrid [p]) [q] 0 =
      (physics.candidatesFor gs (physics.buildGrid [p]) q).foldl
        (fun acc j => if j = 0 then acc else physics.resolvePair acc 0 j) [q] := rfl
  rw [he]
  exact foldl_resolve_skip 0 _ [q] fun j hj => candidatesFor_one hj

/-- One relaxation pass over a lone particle changes nothing. -/
theorem solvePass_one (gs : physics.Cell3) (p q : physics.Particle) :
    physics.solvePass gs (physics.buildGrid [p]) [q] = [q] := by
  have he : physics.solvePass gs (physics.buildGrid [p]) [q] =
      physics.solveParticle gs (physics.buildGrid [p]) [q] 0 := rfl
  rw [he, solveParticle_one]

/-- Updating a one-particle cloud is exactly force application,
integration and bound correction: the solver passes are no-ops. -/
theorem Cloud_update_one (gs : physics.Cell3) (p : physics.Particle)
    (a : physics.Vec3) (dt : ℚ) (st : Bool) :
    physics.Cloud.update ⟨gs, [p]⟩ a dt st =
      ⟨gs, [physics.correctToBounds gs
        ((p.applyForce (physics.Vec3.smul p.mass a)).move dt)]⟩ := by
  have he : physics.Cloud.update ⟨gs, [p]⟩ a dt st =
      ⟨gs, (physics.iterN
        (physics.solvePass gs
          (physics.buildGrid [(p.applyForce (physics.Vec3.smul p.mass a)).move dt]))
        physics.solverIterations
        [(p.applyForce (physics.Vec3.smul p.mass a)).move dt]).map
          (physics.correctToBounds gs)⟩ := rfl
  rw [he]
  have h2 : physics.iterN
      (physics.solvePass gs
        (physics.buildGrid [(p.applyForce (physics.Vec3.smul p.mass a)).move dt]))
      physics.solverIterations
      [(p.applyForce (physics.Vec3.smul p.mass a)).move dt] =
      [(p.applyForce (physics.Vec3.smul p.mass a)).move dt] := by
    show physics.solvePass gs _ (physics.solvePass gs _ [_]) = _
    rw [solvePass_one, solvePass_one]
  rw [h2]
  rfl

/-- C6 counterexample: two runs with the same particle count (1), the
same configuration and the same iteration count (1), in which the
generator lambda merely observes different wall-clock timestamps
(1 versus 2), end with different particle positions — so the pipeline is
not a function of a seed and the particle count: the code has no seed
input, and the positions depend on the per-call timestamps of
Timer::getTimestamp. -/
theorem C6_counterexample :
    b2.finalParticles (1, 1) 2 1 (fun _ => 1) 1 ≠ b2.finalParticles (1, 1) 2 1 (fun _ => 2) 1 := by
  have hgs : b2.gridSizeOf (1, 1) 2 = ((2 : Int), (2 : Int), (2 : Int)) := by
    simp [b2.gridSizeOf, b2.truncQ]
    norm_num [Rat.floor_def']
  have e1 : b2.finalParticles (1, 1) 2 1 (fun _ => 1) 1 =
      [physics.correctToBounds ((2 : Int), (2 : Int), (2 : Int))
        (((physics.generateParticle ((2 : Int), (2 : Int), (2 : Int)) 1).applyForce
            (physics.Vec3.smul (physics.generateParticle ((2 : Int), (2 : Int), (2 : Int)) 1).mass
              b2.defaultAcceleration)).move (1 / 100))] := by
    simp only [b2.finalParticles, hgs]
    show (physics.Cloud.update
        ⟨((2 : Int), (2 : Int), (2 : Int)),
          [physics.generateParticle ((2 : Int), (2 : Int), (2 : Int)) 1]⟩
        b2.defaultAcceleration (1 / 100) true).particles = _
    rw [Cloud_update_one]
  have e2 : b2.finalParticles (1, 1) 2 1 (fun _ => 2) 1 =
      [physics.correctToBounds ((2 : Int), (2 : Int), (2 : Int))
        (((physics.generateParticle ((2 : Int), (2 : Int), (2 : Int)) 2).applyForce
            (physics.Vec3.smul (physics.generateParticle ((2 : Int), (2 : Int), (2 : Int)) 2).mass
              b2.defaultAcceleration)).move (1 / 100))] := by
    simp only [b2.finalParticles, hgs]
    show (physics.Cloud.update
        ⟨((2 : Int), (2 : Int), (2 : Int)),
          [physics.generateParticle ((2 : Int), (2 : Int), (2 : Int)) 2]⟩
        b2.defaultAcceleration (1 / 100) true).particles = _
    rw [Cloud_update_one]
  rw [e1, e2]
  intro hEq
  simp only [List.cons.injEq, and_true] at hEq
  have hx := congrArg (fun q : physics.Particle => q.position.x) hEq
  norm_num [physics.correctToBounds, physics.clampAxis, physics.Particle.move,
    physics.Particle.applyForce, physics.generateParticle, physics.Particle.construct,
    physics.defaultMass, physics.uniformDraw, physics.minstdNext, physics.minstdSeed,
    physics.minstdM, physics.Vec3.smul, physics.Vec3.zero, vec3_add_def, vec3_sub_def,
    b2.defaultAcceleration] at hx

/-- C6 amended: with singleThread true the pipeline is deterministic as a
function of its actual inputs — after any number k of completed loop
iterations from a freshly constructed game, the particle list equals the
pure function finalParticles of the surface size, grid width, particle
count, per-call generator timestamps and k, whatever wall-clock timings
the iterations observe; two runs agreeing on those inputs therefore end
with bit-identical particle positions.  (As the counterexample shows, the
timestamp sequence — not a seed — is the input that must agree: the code
seeds each generation call from Timer::getTimestamp and has no seed
parameter.) -/
theorem C6_deterministic_of_timestamps :
    ∀ (surfaceSize : Int × Int) (gridWidth count : Nat) (ts : Nat → Nat)
      (k : Nat) (obss : List b2.TimingObs),
      ((b2.logicRoutineRun (b2.gameStart surfaceSize gridWidth count ts true)
          (List.replicate k true) obss).1).particlesCloud.particles =
        b2.finalParticles surfaceSize gridWidth count ts k := by
  intro surfaceSize gridWidth count ts k obss
  rw [logicRoutineRun_cloud]
  rfl
